import Mathlib

/-!
Shallow embedding of the FastAPI contact-book service
(src/services/auth.py, src/routes/auth.py, src/routes/contacts.py,
src/repository/users.py, src/repository/contacts.py).

Conventions of the embedding:
* A JWT is modelled by the `Token` structure: its fields are exactly the
  payload claims the code writes (`sub`, `scope`, `iat`, `exp`) plus the
  signing key.  Structural equality of `Token` models string equality of
  the encoded JWT strings, since `jwt.encode` is deterministic in payload
  and key.
* Time is an explicit `Nat` parameter (seconds); `datetime.utcnow()`
  becomes the `now` argument threaded through each operation.
* The database session is a `Db` value (list of user rows and contact
  rows); `await db.commit()` after mutating an ORM object becomes a pure
  row update keyed by primary id.
* Python exceptions become the `PyErr` sum: `HTTPException(status, detail)`
  is `.httpException`, an uncaught `AttributeError` from dereferencing
  `None` is `.attributeError`, an uncaught `TypeError` from a
  call-signature mismatch is `.typeError`, an uncaught `KeyError` from a
  missing payload key is `.keyError`, and an exception raised by the
  redis client (e.g. `redis.ConnectionError` when the store is
  unreachable) is `.cacheError`.
* `src/entity/models.py` and `src/conf/config.py` are not among the
  sources.  The `User` and `Contact` column sets are reconstructed from
  their uses; the column defaults applied by `User(**body.model_dump(),
  avatar=avatar)` at signup (`confirmed = False`, `refresh_token = None`)
  are modelled from the spec (§3: "created at signup (unconfirmed)",
  "currently-valid refresh token (nullable)").
-/

namespace ContactBook

/-- Payload-plus-signature of a JWT as produced by `jwt.encode` in
src/services/auth.py.  `scope` is `none` for tokens whose payload carries
no `scope` claim (as `create_email_token` produces). -/
structure Token where
  sub : String
  scope : Option String
  iat : Nat
  exp : Nat
  key : String
  deriving Repr, DecidableEq

/-- Row of the `users` table.  `refresh_token` stores the last issued
refresh token (the encoded JWT string in the code, a `Token` here). -/
structure User where
  id : Nat
  username : String
  email : String
  password : String
  confirmed : Bool
  refresh_token : Option Token
  avatar : Option String
  deriving Repr, DecidableEq

/-- Row of the `contacts` table (fields from ContactSchema /
ContactUpdateSchema plus the owner foreign key). -/
structure Contact where
  id : Nat
  first_name : String
  last_name : String
  email : String
  phone_number : String
  birthday : String
  completed : Bool
  user_id : Nat
  deriving Repr, DecidableEq

/-- Database state: the `users` and `contacts` tables plus the
autoincrement counter for new user ids. -/
structure Db where
  users : List User
  contacts : List Contact
  nextUserId : Nat
  deriving Repr, DecidableEq

/-- Schema invariants guaranteed by the store: primary keys and the
natural key `email` are unique across user rows. -/
def Db.wf (db : Db) : Prop :=
  db.users.Pairwise (fun a b => a.id ≠ b.id) ∧
    db.users.Pairwise (fun a b => a.email ≠ b.email)

instance (db : Db) : Decidable db.wf := by
  unfold Db.wf; infer_instance

deriving instance DecidableEq for Except

/-- Python errors that escape the handlers, see the module docstring. -/
inductive PyErr where
  | httpException (status : Nat) (detail : String)
  | attributeError
  | typeError
  | keyError
  | cacheError
  | multipleResults
  deriving Repr, DecidableEq

/-- Value of `config.SECRET_KEY_JWT`: the one signing secret shared by
every token scope. -/
def SECRET_KEY : String := "secret_key_jwt"

/-- `jwt.decode(token, key, algorithms=...)` from python-jose: verifies the
signature (modelled as equality of signing keys) and the `exp` claim, and
returns the payload; a bad signature or an expired token raises `JWTError`
(modelled as `.error ()`). -/
def jwt_decode (t : Token) (key : String) (now : Nat) : Except Unit Token :=
  if t.key = key ∧ now ≤ t.exp then .ok t else .error ()

end ContactBook

namespace ContactBook.Auth

open ContactBook

/-- Auth.get_password_hash: bcrypt hashing, modelled as an injective
tagging of the plain password (only the success or failure of
verification matters to the control flow). -/
def get_password_hash (password : String) : String :=
  "bcrypt$" ++ password

/-- Auth.verify_password: bcrypt verification of a plain password against
a stored hash. -/
def verify_password (plain_password hashed_password : String) : Bool :=
  get_password_hash plain_password == hashed_password

/-- Auth.create_access_token: payload is the data dict (`sub`) plus
`iat = utcnow`, `scope = "access_token"`, and
`exp = utcnow + expires_delta seconds` when `expires_delta` is truthy,
else `utcnow + 15 minutes`; signed with SECRET_KEY. -/
def create_access_token (sub : String) (expires_delta : Option Nat)
    (now : Nat) : Token :=
  let expire : Nat :=
    match expires_delta with
    | some d => if d ≠ 0 then now + d else now + 15 * 60
    | none => now + 15 * 60
  { sub := sub, scope := some "access_token", iat := now, exp := expire,
    key := SECRET_KEY }

/-- Auth.create_refresh_token: like `create_access_token` but with
`scope = "refresh_token"` and a 7-day default expiry. -/
def create_refresh_token (sub : String) (expires_delta : Option Nat)
    (now : Nat) : Token :=
  let expire : Nat :=
    match expires_delta with
    | some d => if d ≠ 0 then now + d else now + 7 * 24 * 60 * 60
    | none => now + 7 * 24 * 60 * 60
  { sub := sub, scope := some "refresh_token", iat := now, exp := expire,
    key := SECRET_KEY }

/-- Auth.decode_refresh_token: decode with SECRET_KEY (`JWTError` caught
and turned into 401 "Could not validate credentials"); then
`payload["scope"]` (a missing key raises `KeyError`, which the
`except JWTError` clause does not catch); if the scope is
`"refresh_token"` return `payload["sub"]`, else raise
401 "Invalid scope for token". -/
def decode_refresh_token (t : Token) (now : Nat) : Except PyErr String :=
  match jwt_decode t SECRET_KEY now with
  | .error _ =>
      .error (.httpException 401 "Could not validate credentials")
  | .ok payload =>
      match payload.scope with
      | none => .error .keyError
      | some s =>
          if s = "refresh_token" then .ok payload.sub
          else .error (.httpException 401 "Invalid scope for token")

/-- Auth.create_email_token: payload is the data dict (`sub`) plus `iat`
and a 1-day expiry — no `scope` claim is written. -/
def create_email_token (sub : String) (now : Nat) : Token :=
  { sub := sub, scope := none, iat := now, exp := now + 24 * 60 * 60,
    key := SECRET_KEY }

/-- Auth.get_email_from_token: decode with SECRET_KEY and return
`payload["sub"]`; a `JWTError` becomes 422 "Invalid token for email
verification".  No scope check of any kind is performed. -/
def get_email_from_token (t : Token) (now : Nat) : Except PyErr String :=
  match jwt_decode t SECRET_KEY now with
  | .error _ =>
      .error (.httpException 422 "Invalid token for email verification")
  | .ok payload => .ok payload.sub

end ContactBook.Auth

namespace ContactBook.RepoUsers

open ContactBook

/-- repository.users.get_user_by_email:
`select(User).filter_by(email=email)` then `scalar_one_or_none()` — `None`
when no row matches, the row when exactly one matches, and the uncaught
SQLAlchemy `MultipleResultsFound` exception when several match (impossible
on a store satisfying `Db.wf`). -/
def get_user_by_email (email : String) (db : Db) :
    Except PyErr (Option User) :=
  match db.users.filter (fun v => v.email == email) with
  | [] => .ok none
  | [u] => .ok (some u)
  | _ :: _ :: _ => .error .multipleResults

/-- Replace the columns of the user row with primary key `uid` by applying
`g`; this is the effect of mutating a fetched ORM object and calling
`db.commit()`. -/
def db_update_row (db : Db) (uid : Nat) (g : User → User) : Db :=
  { db with
    users := db.users.map (fun v => if v.id = uid then g v else v) }

/-- repository.users.update_token: `user.refresh_token = token` followed by
`await db.commit()`. -/
def update_token (user : User) (token : Option Token) (db : Db) : Db :=
  db_update_row db user.id (fun v => { v with refresh_token := token })

/-- The Gravatar lookup performed in create_user, modelled as a pure
function of the email (the surrounding try/except turns a lookup failure
into `avatar = None`; the success case is the one modelled). -/
def gravatar_image (email : String) : Option String :=
  some ("gravatar://" ++ email)

/-- repository.users.create_user: build a `User` from the schema fields
plus the Gravatar avatar, add it and commit.  Column defaults
`confirmed = False`, `refresh_token = None` are modelled from the spec
(§3) because src/entity/models.py is not among the sources. -/
def create_user (username email password : String) (db : Db) :
    Db × User :=
  let new_user : User :=
    { id := db.nextUserId, username := username, email := email,
      password := password, confirmed := false, refresh_token := none,
      avatar := gravatar_image email }
  ({ db with users := db.users ++ [new_user],
             nextUserId := db.nextUserId + 1 }, new_user)

/-- repository.users.confirmed_email: re-fetch the user by email, set
`user.confirmed = True`, commit.  (`user.confirmed` on a `None` result
would raise `AttributeError`; the route checks for `None` first.) -/
def confirmed_email (email : String) (db : Db) : Db × Except PyErr Unit :=
  match get_user_by_email email db with
  | .error e => (db, .error e)
  | .ok none => (db, .error .attributeError)
  | .ok (some u) =>
      (db_update_row db u.id (fun v => { v with confirmed := true }), .ok ())

end ContactBook.RepoUsers

namespace ContactBook.RepoContacts

open ContactBook

/-- repository.contacts.read_contacts: its signature is
`(limit, offset, db)` — it takes NO user argument, and the query
`select(Contact).offset(offset).limit(limit)` has no per-user filter. -/
def read_contacts (limit offset : Nat) (db : Db) : List Contact :=
  (db.contacts.drop offset).take limit

/-- repository.contacts.read_contact:
`select(Contact).filter_by(id=contact_id, user=user)` then
`scalar_one_or_none()`. -/
def read_contact (contact_id : Nat) (db : Db) (user : User) :
    Option Contact :=
  (db.contacts.filter
    (fun c => c.id == contact_id && c.user_id == user.id)).head?

end ContactBook.RepoContacts

namespace ContactBook.Cache

open ContactBook

/-- One redis key/value pair: the pickled user snapshot stored under the
email key, with its remaining TTL (`none` = no expiry set). -/
structure Entry where
  key : String
  val : User
  ttl : Option Nat
  deriving Repr, DecidableEq

/-- The redis client's reachable state: its entries, plus a flag modelling
an unreachable or erroring store (every command raises, e.g.
`redis.exceptions.ConnectionError`). -/
structure CacheState where
  entries : List Entry
  failing : Bool
  deriving Repr, DecidableEq

/-- `self.cache.get(key)`. -/
def cache_get (c : CacheState) (k : String) : Except PyErr (Option User) :=
  if c.failing then .error .cacheError
  else .ok ((c.entries.find? (fun e => e.key == k)).map (fun e => e.val))

/-- `self.cache.set(key, pickle.dumps(user))`: stores the snapshot with no
expiry. -/
def cache_set (c : CacheState) (k : String) (u : User) :
    Except PyErr CacheState :=
  if c.failing then .error .cacheError
  else .ok { c with
    entries := { key := k, val := u, ttl := none } ::
      c.entries.filter (fun e => !(e.key == k)) }

/-- `self.cache.expire(key, ttl)`. -/
def cache_expire (c : CacheState) (k : String) (ttl : Nat) :
    Except PyErr CacheState :=
  if c.failing then .error .cacheError
  else .ok { c with
    entries := c.entries.map
      (fun e => if e.key == k then { e with ttl := some ttl } else e) }

end ContactBook.Cache

namespace ContactBook.Auth

open ContactBook ContactBook.Cache

/-- Auth.get_current_user: decode the bearer token with SECRET_KEY
(`JWTError` caught → 401 "Could not validate credentials"); require
`payload["scope"] == "access_token"` (else the same 401; a payload with no
`scope` key raises an uncaught `KeyError`); then look the subject up in
the redis cache — the cache calls are NOT wrapped in any try/except, so a
redis exception propagates out of the dependency; on a cache miss fall
back to `get_user_by_email`, 401 when the user does not exist, else
`cache.set` the pickled user and `cache.expire` it to 30 minutes.
Returns the user together with the cache state after the call. -/
def get_current_user (token : Token) (db : Db) (cache : CacheState)
    (now : Nat) : Except PyErr (User × CacheState) :=
  match jwt_decode token SECRET_KEY now with
  | .error _ =>
      .error (.httpException 401 "Could not validate credentials")
  | .ok payload =>
      match payload.scope with
      | none => .error .keyError
      | some s =>
          if s = "access_token" then
            let email := payload.sub
            match cache_get cache email with
            | .error e => .error e
            | .ok (some cached_user) => .ok (cached_user, cache)
            | .ok none =>
                match RepoUsers.get_user_by_email email db with
                | .error e => .error e
                | .ok none =>
                    .error (.httpException 401 "Could not validate credentials")
                | .ok (some user) =>
                    match cache_set cache email user with
                    | .error e => .error e
                    | .ok c1 =>
                        match cache_expire c1 email (30 * 60) with
                        | .error e => .error e
                        | .ok c2 => .ok (user, c2)
          else .error (.httpException 401 "Could not validate credentials")

end ContactBook.Auth

namespace ContactBook.RoutesAuth

open ContactBook ContactBook.Auth ContactBook.RepoUsers

/-- Body of POST /auth/login and GET /auth/refresh_token on success. -/
structure TokenSchema where
  access_token : Token
  refresh_token : Token
  token_type : String
  deriving Repr, DecidableEq

/-- routes.auth.signup: 409 "Account already exists" when a user with the
email exists (the store is returned unchanged); otherwise hash the
password, create the user (the route then schedules the confirmation
email as a background task, an external effect outside the store) and
return it — the route is declared with success status 201. -/
def signup (username email password : String) (db : Db) :
    Db × Except PyErr User :=
  match get_user_by_email email db with
  | .error e => (db, .error e)
  | .ok (some _) =>
      (db, .error (.httpException 409 "Account already exists"))
  | .ok none =>
      let hashed := get_password_hash password
      let (db1, new_user) := create_user username email hashed db
      (db1, .ok new_user)

/-- routes.auth.login: look the user up by the submitted username (an
email); 401 "Invalid email" when absent, 401 "Email not confirmed" when
not confirmed, 401 "Invalid password" when verification fails; on success
mint an access and a refresh token for `user.email`, persist the refresh
token with update_token, and return the pair. -/
def login (username password : String) (db : Db) (now : Nat) :
    Db × Except PyErr TokenSchema :=
  match get_user_by_email username db with
  | .error e => (db, .error e)
  | .ok none => (db, .error (.httpException 401 "Invalid email"))
  | .ok (some user) =>
      if !user.confirmed then
        (db, .error (.httpException 401 "Email not confirmed"))
      else if !(verify_password password user.password) then
        (db, .error (.httpException 401 "Invalid password"))
      else
        let access := create_access_token user.email none now
        let refresh := create_refresh_token user.email none now
        (update_token user (some refresh) db,
         .ok { access_token := access, refresh_token := refresh,
               token_type := "bearer" })

/-- routes.auth.refresh_token: decode the presented token with
decode_refresh_token, fetch the user by the decoded email — the code then
reads `user.refresh_token` with no `None` check, so a missing user raises
an uncaught `AttributeError`; when the presented token differs from the
stored one, clear the stored token and raise 401 "Invalid refresh token";
otherwise mint a fresh pair, persist the new refresh token and return the
pair. -/
def refresh_token_route (tok : Token) (db : Db) (now : Nat) :
    Db × Except PyErr TokenSchema :=
  match decode_refresh_token tok now with
  | .error e => (db, .error e)
  | .ok email =>
      match get_user_by_email email db with
      | .error e => (db, .error e)
      | .ok none => (db, .error .attributeError)
      | .ok (some user) =>
          if user.refresh_token ≠ some tok then
            (update_token user none db,
             .error (.httpException 401 "Invalid refresh token"))
          else
            let access := create_access_token email none now
            let refresh := create_refresh_token email none now
            (update_token user (some refresh) db,
             .ok { access_token := access, refresh_token := refresh,
                   token_type := "bearer" })

/-- routes.auth.confirmed_email: extract the email with
get_email_from_token, fetch the user; 400 "Verification error" when no
user matches; when already confirmed reply "Your email is already
confirmed" without touching the store; otherwise flip the flag via
repository confirmed_email and reply "Email confirmed". -/
def confirmed_email_route (tok : Token) (db : Db) (now : Nat) :
    Db × Except PyErr String :=
  match get_email_from_token tok now with
  | .error e => (db, .error e)
  | .ok email =>
      match get_user_by_email email db with
      | .error e => (db, .error e)
      | .ok none =>
          (db, .error (.httpException 400 "Verification error"))
      | .ok (some user) =>
          if user.confirmed then
            (db, .ok "Your email is already confirmed")
          else
            match RepoUsers.confirmed_email email db with
            | (db1, .ok _) => (db1, .ok "Email confirmed")
            | (db1, .error e) => (db1, .error e)

/-- routes.auth.request_email: fetch the user by the posted email, then
read `user.confirmed` — this dereference happens BEFORE the `if user:`
truthiness check, so an unknown email raises an uncaught
`AttributeError`; a confirmed user gets "Your email is already
confirmed", any other user gets a background confirmation email and
"Check your email for confirmation.". -/
def request_email (email : String) (db : Db) : Except PyErr String :=
  match get_user_by_email email db with
  | .error e => .error e
  | .ok none => .error .attributeError
  | .ok (some user) =>
      if user.confirmed then .ok "Your email is already confirmed"
      else .ok "Check your email for confirmation."

end ContactBook.RoutesAuth

namespace ContactBook.RoutesContacts

open ContactBook ContactBook.Cache

/-- routes.contacts.read_contacts (GET /contacts/): resolves the user via
get_current_user, then calls
`repositories_contacts.read_contacts(limit=limit, offset=offset, db=db,
user=user)`.  The repository function's signature is
`read_contacts(limit, offset, db)`: it accepts no `user` parameter, so
this call raises `TypeError: read_contacts() got an unexpected keyword
argument` before any query runs. -/
def read_contacts (limit offset : Nat) (tok : Token) (db : Db)
    (cache : CacheState) (now : Nat) : Except PyErr (List Contact) :=
  match Auth.get_current_user tok db cache now with
  | .error e => .error e
  | .ok _ => .error .typeError

end ContactBook.RoutesContacts

namespace ContactBook.Demo

open ContactBook

/-- Confirmed user used to instantiate the theorems on concrete inputs. -/
def bobU : User :=
  { id := 1, username := "bob", email := "bob@x.com",
    password := Auth.get_password_hash "pw", confirmed := true,
    refresh_token := none, avatar := none }

/-- A second user, owner of the demo contact. -/
def aliceU : User :=
  { id := 2, username := "alice", email := "alice@x.com",
    password := Auth.get_password_hash "pw2", confirmed := false,
    refresh_token := none, avatar := none }

/-- A contact row owned by `aliceU`, not by `bobU`. -/
def carolContact : Contact :=
  { id := 7, first_name := "Carol", last_name := "Doe",
    email := "carol@x.com", phone_number := "0979898998",
    birthday := "12.12.1984", completed := false, user_id := 2 }

/-- Store holding both users and Alice's contact. -/
def demoDb : Db :=
  { users := [bobU, aliceU], contacts := [carolContact], nextUserId := 3 }

/-- A reachable, empty redis cache. -/
def liveCache : Cache.CacheState := { entries := [], failing := false }

/-- An unreachable redis cache: every command raises. -/
def downCache : Cache.CacheState := { entries := [], failing := true }

/-- A reachable cache already holding Bob's pickled snapshot. -/
def warmCache : Cache.CacheState :=
  { entries := [{ key := "bob@x.com", val := bobU, ttl := some (30 * 60) }],
    failing := false }

end ContactBook.Demo

namespace ContactBook.Lemmas

open ContactBook ContactBook.Auth ContactBook.RepoUsers ContactBook.Cache

/-- On a table whose emails are pairwise distinct, filtering by an email
yields the singleton (or empty) list of the first find. -/
lemma filter_singleton_of_pairwise (l : List ContactBook.User) (e : String)
    (h : l.Pairwise (fun a b => a.email ≠ b.email)) :
    l.filter (fun v => v.email == e) =
      (l.find? (fun v => v.email == e)).toList := by
  induction l with
  | nil => simp
  | cons x xs ih =>
      rcases List.pairwise_cons.mp h with ⟨hx, hxs⟩
      by_cases hp : x.email = e
      · have hnil : xs.filter (fun v => v.email == e) = [] := by
          rw [List.filter_eq_nil_iff]
          intro w hw
          simp only [beq_iff_eq]
          intro hwe
          exact hx w hw (hp.trans hwe.symm)
        simp [List.filter_cons, List.find?_cons, hp, hnil]
      · simp [List.filter_cons, List.find?_cons, hp, ih hxs]

/-- On a well-formed store, `get_user_by_email` is the first find. -/
lemma get_user_by_email_eq_find (e : String) (db : Db) (h : db.wf) :
    get_user_by_email e db =
      .ok (db.users.find? (fun v => v.email == e)) := by
  unfold get_user_by_email
  rw [filter_singleton_of_pairwise db.users e h.2]
  cases db.users.find? (fun v => v.email == e) <;> simp

/-- With pairwise-distinct ids, updating the row whose id is `u.id` is the
same as replacing the occurrence of the value `u`. -/
lemma map_update_congr (l : List ContactBook.User) (u : ContactBook.User)
    (g : ContactBook.User → ContactBook.User)
    (hids : l.Pairwise (fun a b => a.id ≠ b.id)) (hu : u ∈ l) :
    l.map (fun v => if v.id = u.id then g v else v) =
      l.map (fun v => if v = u then g u else v) := by
  apply List.map_congr_left
  intro y hy
  by_cases hyu : y = u
  · subst hyu; simp
  · have hsym : Symmetric (fun a b : ContactBook.User => a.id ≠ b.id) :=
      fun a b hab hba => hab hba.symm
    have hne : y.id ≠ u.id := hids.forall hsym hy hu hyu
    simp [hne, hyu]

/-- Replacing the found row by a row with the same email keeps it the
first find. -/
lemma find_map_replace (l : List ContactBook.User)
    (u u2 : ContactBook.User) (e : String)
    (hfind : l.find? (fun v => v.email == e) = some u)
    (hemail : u2.email = u.email) :
    (l.map (fun v => if v = u then u2 else v)).find?
        (fun v => v.email == e) = some u2 := by
  have hue : u.email = e := by
    have := List.find?_some hfind
    simpa using this
  induction l with
  | nil => simp at hfind
  | cons x xs ih =>
      cases hxe : (x.email == e) with
      | true =>
          have hxu : x = u := by
            simp only [List.find?_cons, hxe] at hfind
            exact Option.some.inj hfind
          subst hxu
          have hu2 : (u2.email == e) = true := by
            rw [hemail, hue]; simp
          simp [List.find?_cons, hu2]
      | false =>
          have hxu : x ≠ u := by
            intro h; subst h; rw [hue] at hxe; simp at hxe
          simp only [List.find?_cons, hxe] at hfind
          simp only [List.map_cons, if_neg hxu, List.find?_cons, hxe]
          exact ih hfind

/-- Replacing one row by a row agreeing on a projection preserves
pairwise distinctness of that projection. -/
lemma pairwise_map_replace {β : Type} (l : List ContactBook.User)
    (u u2 : ContactBook.User) (p : ContactBook.User → β) (hp : p u2 = p u)
    (h : l.Pairwise (fun a b => p a ≠ p b)) :
    (l.map (fun v => if v = u then u2 else v)).Pairwise
      (fun a b => p a ≠ p b) := by
  rw [List.pairwise_map]
  refine h.imp ?_
  intro a b hab
  by_cases ha : a = u
  · by_cases hb : b = u
    · subst ha; subst hb; exact absurd rfl hab
    · subst ha
      simpa [hb, hp] using hab
  · by_cases hb : b = u
    · subst hb
      simpa [ha, hp] using hab
    · simpa [ha, hb] using hab

/-- Committing a field update on the row found for `e` (the update keeping
id and email intact) makes the lookup return the updated row and keeps the
store well-formed. -/
lemma db_update_row_spec (db : Db) (u : ContactBook.User)
    (g : ContactBook.User → ContactBook.User) (e : String)
    (hwf : db.wf)
    (hget : get_user_by_email e db = .ok (some u))
    (hid : (g u).id = u.id) (hemail : (g u).email = u.email) :
    get_user_by_email e (db_update_row db u.id g) = .ok (some (g u))
    ∧ (db_update_row db u.id g).wf := by
  have hfind : db.users.find? (fun v => v.email == e) = some u := by
    rw [get_user_by_email_eq_find e db hwf] at hget
    simpa using hget
  have hu_mem : u ∈ db.users := List.mem_of_find?_eq_some hfind
  have hcongr := map_update_congr db.users u g hwf.1 hu_mem
  have husers : (db_update_row db u.id g).users =
      db.users.map (fun v => if v = u then g u else v) := by
    unfold db_update_row
    simpa using hcongr
  have hwf2 : (db_update_row db u.id g).wf := by
    constructor
    · rw [husers]
      exact pairwise_map_replace db.users u (g u) (fun v => v.id) hid hwf.1
    · rw [husers]
      exact pairwise_map_replace db.users u (g u) (fun v => v.email)
        hemail hwf.2
  refine ⟨?_, hwf2⟩
  rw [get_user_by_email_eq_find e _ hwf2, husers,
    find_map_replace db.users u (g u) e hfind hemail]

end ContactBook.Lemmas

namespace ContactBook.Lemmas

open ContactBook ContactBook.Auth ContactBook.RepoUsers ContactBook.Cache
open ContactBook.RoutesAuth

/-- Login reduces to a token pair and a committed refresh token when the
user exists, is confirmed and the password verifies. -/
lemma login_success_eq (e pw : String) (db : Db) (now : Nat)
    (u : ContactBook.User)
    (hget : get_user_by_email e db = .ok (some u))
    (hconf : u.confirmed = true)
    (hpw : verify_password pw u.password = true) :
    login e pw db now =
      (update_token u (some (create_refresh_token u.email none now)) db,
       .ok { access_token := create_access_token u.email none now,
             refresh_token := create_refresh_token u.email none now,
             token_type := "bearer" }) := by
  unfold login
  rw [hget]
  simp [hconf, hpw]

/-- decode_refresh_token succeeds on a token signed with the service key,
unexpired, and carrying scope refresh_token. -/
lemma decode_refresh_ok (tok : Token) (now : Nat)
    (hkey : tok.key = SECRET_KEY) (hexp : now ≤ tok.exp)
    (hscope : tok.scope = some "refresh_token") :
    decode_refresh_token tok now = .ok tok.sub := by
  unfold decode_refresh_token jwt_decode
  rw [if_pos ⟨hkey, hexp⟩]
  simp [hscope]

/-- The refresh route rotates the pair when the stored refresh token
matches the presented one. -/
lemma refresh_success_eq (tok : Token) (db : Db) (now : Nat)
    (u : ContactBook.User)
    (hkey : tok.key = SECRET_KEY) (hexp : now ≤ tok.exp)
    (hscope : tok.scope = some "refresh_token")
    (hget : get_user_by_email tok.sub db = .ok (some u))
    (hstored : u.refresh_token = some tok) :
    refresh_token_route tok db now =
      (update_token u (some (create_refresh_token tok.sub none now)) db,
       .ok { access_token := create_access_token tok.sub none now,
             refresh_token := create_refresh_token tok.sub none now,
             token_type := "bearer" }) := by
  unfold refresh_token_route
  rw [decode_refresh_ok tok now hkey hexp hscope]
  simp [hget, hstored]

/-- The refresh route clears the stored token and fails 401 when the
stored refresh token differs from the presented one. -/
lemma refresh_mismatch_eq (tok : Token) (db : Db) (now : Nat)
    (u : ContactBook.User)
    (hkey : tok.key = SECRET_KEY) (hexp : now ≤ tok.exp)
    (hscope : tok.scope = some "refresh_token")
    (hget : get_user_by_email tok.sub db = .ok (some u))
    (hstored : u.refresh_token ≠ some tok) :
    refresh_token_route tok db now =
      (update_token u none db,
       .error (.httpException 401 "Invalid refresh token")) := by
  unfold refresh_token_route
  rw [decode_refresh_ok tok now hkey hexp hscope]
  simp [hget, hstored]

/-- get_email_from_token returns the subject of any token signed with the
service key and unexpired, whatever its scope. -/
lemma get_email_from_token_ok (tok : Token) (now : Nat)
    (hkey : tok.key = SECRET_KEY) (hexp : now ≤ tok.exp) :
    get_email_from_token tok now = .ok tok.sub := by
  unfold get_email_from_token jwt_decode
  rw [if_pos ⟨hkey, hexp⟩]

end ContactBook.Lemmas

namespace ContactBook.Claims

open ContactBook ContactBook.Auth ContactBook.RepoUsers ContactBook.Cache
open ContactBook.RoutesAuth ContactBook.Lemmas

/-- C2: token scopes are mutually exclusive at decode time: for every
subject, a token issued with scope access is rejected (401) by
decode_refresh_token, and a token issued with scope refresh is rejected
(401) by get_current_user, signature validity and expiry
notwithstanding. -/
theorem scope_cross_use_rejected (sub : String) (expd : Option Nat)
    (issued now : Nat) (db : Db) (c : CacheState)
    (h1 : now ≤ (create_access_token sub expd issued).exp)
    (h2 : now ≤ (create_refresh_token sub expd issued).exp) :
    decode_refresh_token (create_access_token sub expd issued) now
      = .error (.httpException 401 "Invalid scope for token")
    ∧ Auth.get_current_user (create_refresh_token sub expd issued) db c now
      = .error (.httpException 401 "Could not validate credentials") := by
  constructor
  · unfold decode_refresh_token jwt_decode
    rw [if_pos ⟨rfl, h1⟩]
    simp [create_access_token]
  · unfold Auth.get_current_user jwt_decode
    rw [if_pos ⟨rfl, h2⟩]
    simp [create_refresh_token]

/-- Witness for C2 at subject bob, issue time 0, check time 5. -/
theorem scope_cross_use_rejected_witness :
    decode_refresh_token (create_access_token "bob@x.com" none 0) 5
      = .error (.httpException 401 "Invalid scope for token")
    ∧ Auth.get_current_user (create_refresh_token "bob@x.com" none 0)
        Demo.demoDb Demo.liveCache 5
      = .error (.httpException 401 "Could not validate credentials") :=
  scope_cross_use_rejected "bob@x.com" none 0 5 Demo.demoDb Demo.liveCache
    (by decide) (by decide)

/-- C3: login fails 401 with detail "Invalid email" when the user is
absent, "Email not confirmed" when unconfirmed, "Invalid password" when
verification fails — three distinct reasons — leaving the store unchanged
in each failure; on success it issues a fresh access+refresh pair and
persists the new refresh token on the user row. -/
theorem login_behaviour (db : Db) (hwf : db.wf) (e pw : String)
    (now : Nat) :
    (get_user_by_email e db = .ok none →
       login e pw db now = (db, .error (.httpException 401 "Invalid email")))
    ∧ (∀ u, get_user_by_email e db = .ok (some u) → u.confirmed = false →
        login e pw db now =
          (db, .error (.httpException 401 "Email not confirmed")))
    ∧ (∀ u, get_user_by_email e db = .ok (some u) → u.confirmed = true →
        verify_password pw u.password = false →
        login e pw db now =
          (db, .error (.httpException 401 "Invalid password")))
    ∧ (∀ u, get_user_by_email e db = .ok (some u) → u.confirmed = true →
        verify_password pw u.password = true →
        ∃ u1,
          login e pw db now =
            (update_token u (some (create_refresh_token u.email none now)) db,
             .ok { access_token := create_access_token u.email none now,
                   refresh_token := create_refresh_token u.email none now,
                   token_type := "bearer" })
          ∧ get_user_by_email e
              (update_token u (some (create_refresh_token u.email none now)) db)
              = .ok (some u1)
          ∧ u1.refresh_token = some (create_refresh_token u.email none now)) := by
  refine ⟨?_, ?_, ?_, ?_⟩
  · intro hget
    unfold login
    rw [hget]
  · intro u hget hconf
    unfold login
    rw [hget]
    simp [hconf]
  · intro u hget hconf hpw
    unfold login
    rw [hget]
    simp [hconf, hpw]
  · intro u hget hconf hpw
    refine ⟨{ u with refresh_token := some (create_refresh_token u.email none now) }, ?_, ?_, rfl⟩
    · exact login_success_eq e pw db now u hget hconf hpw
    · exact (db_update_row_spec db u
        (fun v => { v with refresh_token := some (create_refresh_token u.email none now) })
        e hwf hget rfl rfl).1

/-- Witness for C3: absent user, unconfirmed alice, wrong password for
bob, and successful login for bob on the demo store. -/
theorem login_behaviour_witness :
    login "ghost@x.com" "pw" Demo.demoDb 0 =
      (Demo.demoDb, .error (.httpException 401 "Invalid email"))
    ∧ login "alice@x.com" "pw2" Demo.demoDb 0 =
      (Demo.demoDb, .error (.httpException 401 "Email not confirmed"))
    ∧ login "bob@x.com" "wrong" Demo.demoDb 0 =
      (Demo.demoDb, .error (.httpException 401 "Invalid password"))
    ∧ ∃ u1,
        login "bob@x.com" "pw" Demo.demoDb 0 =
          (update_token Demo.bobU
             (some (create_refresh_token Demo.bobU.email none 0)) Demo.demoDb,
           .ok { access_token := create_access_token Demo.bobU.email none 0,
                 refresh_token := create_refresh_token Demo.bobU.email none 0,
                 token_type := "bearer" })
        ∧ get_user_by_email "bob@x.com"
            (update_token Demo.bobU
               (some (create_refresh_token Demo.bobU.email none 0)) Demo.demoDb)
            = .ok (some u1)
        ∧ u1.refresh_token = some (create_refresh_token Demo.bobU.email none 0) :=
  ⟨(login_behaviour Demo.demoDb (by decide) "ghost@x.com" "pw" 0).1 (by decide),
   (login_behaviour Demo.demoDb (by decide) "alice@x.com" "pw2" 0).2.1
     Demo.aliceU (by decide) (by decide),
   (login_behaviour Demo.demoDb (by decide) "bob@x.com" "wrong" 0).2.2.1
     Demo.bobU (by decide) (by decide) (by decide),
   (login_behaviour Demo.demoDb (by decide) "bob@x.com" "pw" 0).2.2.2
     Demo.bobU (by decide) (by decide) (by decide)⟩

/-- C8: signup with an email that already belongs to an existing user
fails 409 leaving the store unchanged; signup with a fresh email creates
exactly one new user row (appended to the table) and returns it (the
route's declared success status is 201). -/
theorem signup_conflict_or_create (username e pw : String) (db : Db) :
    (∀ u, get_user_by_email e db = .ok (some u) →
       signup username e pw db =
         (db, .error (.httpException 409 "Account already exists")))
    ∧ (get_user_by_email e db = .ok none →
       ∃ nu, signup username e pw db =
           ({ users := db.users ++ [nu], contacts := db.contacts,
              nextUserId := db.nextUserId + 1 }, .ok nu)
         ∧ nu.username = username ∧ nu.email = e
         ∧ nu.password = get_password_hash pw
         ∧ nu.confirmed = false ∧ nu.refresh_token = none) := by
  constructor
  · intro u hget
    unfold signup
    rw [hget]
  · intro hget
    refine ⟨{ id := db.nextUserId, username := username, email := e,
              password := get_password_hash pw, confirmed := false,
              refresh_token := none,
              avatar := gravatar_image e }, ?_, rfl, rfl, rfl, rfl, rfl⟩
    unfold signup create_user
    rw [hget]

/-- Witness for C8: duplicate signup for bob's email is a 409 on the
unchanged demo store; signup with a fresh email appends one row. -/
theorem signup_conflict_or_create_witness :
    signup "bob2" "bob@x.com" "pw9" Demo.demoDb =
      (Demo.demoDb, .error (.httpException 409 "Account already exists"))
    ∧ ∃ nu, signup "carl" "carl@x.com" "pw9" Demo.demoDb =
        ({ users := Demo.demoDb.users ++ [nu],
           contacts := Demo.demoDb.contacts,
           nextUserId := Demo.demoDb.nextUserId + 1 }, .ok nu)
      ∧ nu.username = "carl" ∧ nu.email = "carl@x.com"
      ∧ nu.password = get_password_hash "pw9"
      ∧ nu.confirmed = false ∧ nu.refresh_token = none :=
  ⟨(signup_conflict_or_create "bob2" "bob@x.com" "pw9" Demo.demoDb).1
     Demo.bobU (by decide),
   (signup_conflict_or_create "carl" "carl@x.com" "pw9" Demo.demoDb).2
     (by decide)⟩

/-- C9: a validly signed, unexpired refresh-scoped token whose subject
matches no stored user makes the refresh endpoint dereference None —
an uncaught AttributeError, not a 401 response. -/
theorem refresh_missing_user_crash (tok : Token) (db : Db) (now : Nat)
    (hkey : tok.key = SECRET_KEY) (hexp : now ≤ tok.exp)
    (hscope : tok.scope = some "refresh_token")
    (hnone : get_user_by_email tok.sub db = .ok none) :
    refresh_token_route tok db now = (db, .error .attributeError)
    ∧ ∀ s d, refresh_token_route tok db now ≠
        (db, .error (.httpException s d)) := by
  have h : refresh_token_route tok db now = (db, .error .attributeError) := by
    unfold refresh_token_route
    rw [decode_refresh_ok tok now hkey hexp hscope]
    simp [hnone]
  refine ⟨h, ?_⟩
  intro s d hcontra
  rw [h] at hcontra
  simp at hcontra

/-- Witness for C9: a refresh token minted for an email with no user row
crashes the refresh route on the demo store. -/
theorem refresh_missing_user_crash_witness :
    refresh_token_route (create_refresh_token "ghost@x.com" none 0)
        Demo.demoDb 5 = (Demo.demoDb, .error .attributeError)
    ∧ ∀ s d, refresh_token_route (create_refresh_token "ghost@x.com" none 0)
        Demo.demoDb 5 ≠ (Demo.demoDb, .error (.httpException s d)) :=
  refresh_missing_user_crash (create_refresh_token "ghost@x.com" none 0)
    Demo.demoDb 5 rfl (by decide) rfl (by decide)

/-- C10: request_email reads user.confirmed before its None check, so a
posted email matching no stored user raises an uncaught AttributeError
instead of returning a response. -/
theorem request_email_missing_user_crash (e : String) (db : Db)
    (hnone : get_user_by_email e db = .ok none) :
    RoutesAuth.request_email e db = .error .attributeError
    ∧ ∀ m, RoutesAuth.request_email e db ≠ .ok m := by
  have h : RoutesAuth.request_email e db = .error .attributeError := by
    unfold RoutesAuth.request_email
    rw [hnone]
  refine ⟨h, ?_⟩
  intro m hcontra
  rw [h] at hcontra
  simp at hcontra

/-- Witness for C10: an unknown email crashes request_email on the demo
store. -/
theorem request_email_missing_user_crash_witness :
    RoutesAuth.request_email "ghost@x.com" Demo.demoDb =
      .error .attributeError
    ∧ ∀ m, RoutesAuth.request_email "ghost@x.com" Demo.demoDb ≠ .ok m :=
  request_email_missing_user_crash "ghost@x.com" Demo.demoDb (by decide)

end ContactBook.Claims

namespace ContactBook.Claims

open ContactBook ContactBook.Auth ContactBook.RepoUsers ContactBook.Cache
open ContactBook.RoutesAuth ContactBook.Lemmas

/-- C7: the confirmed_email route decodes the presented token without any
scope check — any validly signed, unexpired token whose subject resolves
is accepted; it rejects with 400 when the subject matches no user,
returns idempotent success without state change when the user is already
confirmed, and otherwise flips confirmed to true. -/
theorem confirm_email_route_props (tok : Token) (db : Db) (now : Nat)
    (hwf : db.wf) (hkey : tok.key = SECRET_KEY) (hexp : now ≤ tok.exp) :
    (∀ u, get_user_by_email tok.sub db = .ok (some u) →
       u.confirmed = false →
       ∃ db1 u1,
         confirmed_email_route tok db now = (db1, .ok "Email confirmed")
         ∧ get_user_by_email tok.sub db1 = .ok (some u1)
         ∧ u1.confirmed = true)
    ∧ (∀ u, get_user_by_email tok.sub db = .ok (some u) →
        u.confirmed = true →
        confirmed_email_route tok db now =
          (db, .ok "Your email is already confirmed"))
    ∧ (get_user_by_email tok.sub db = .ok none →
       confirmed_email_route tok db now =
         (db, .error (.httpException 400 "Verification error"))) := by
  refine ⟨?_, ?_, ?_⟩
  · intro u hget hconf
    have hspec := db_update_row_spec db u
      (fun v => { v with confirmed := true }) tok.sub hwf hget rfl rfl
    refine ⟨db_update_row db u.id (fun v => { v with confirmed := true }),
            { u with confirmed := true }, ?_, hspec.1, rfl⟩
    unfold confirmed_email_route
    rw [get_email_from_token_ok tok now hkey hexp]
    simp [RepoUsers.confirmed_email, hget, hconf]
  · intro u hget hconf
    unfold confirmed_email_route
    rw [get_email_from_token_ok tok now hkey hexp]
    simp [hget, hconf]
  · intro hnone
    unfold confirmed_email_route
    rw [get_email_from_token_ok tok now hkey hexp]
    simp [hnone]

/-- Witness for C7: an ACCESS-scoped token for unconfirmed alice is
accepted by the confirmation route and flips her flag; the same token
kind for a confirmed user is an idempotent no-op; an unknown subject is a
400. -/
theorem confirm_email_route_props_witness :
    (∃ db1 u1,
       confirmed_email_route (create_access_token "alice@x.com" none 0)
           Demo.demoDb 5 = (db1, .ok "Email confirmed")
       ∧ get_user_by_email "alice@x.com" db1 = .ok (some u1)
       ∧ u1.confirmed = true)
    ∧ confirmed_email_route (create_access_token "bob@x.com" none 0)
        Demo.demoDb 5 = (Demo.demoDb, .ok "Your email is already confirmed")
    ∧ confirmed_email_route (create_access_token "ghost@x.com" none 0)
        Demo.demoDb 5 =
        (Demo.demoDb, .error (.httpException 400 "Verification error")) :=
  ⟨(confirm_email_route_props (create_access_token "alice@x.com" none 0)
      Demo.demoDb 5 (by decide) rfl (by decide)).1 Demo.aliceU (by decide) rfl,
   (confirm_email_route_props (create_access_token "bob@x.com" none 0)
      Demo.demoDb 5 (by decide) rfl (by decide)).2.1 Demo.bobU (by decide) rfl,
   (confirm_email_route_props (create_access_token "ghost@x.com" none 0)
      Demo.demoDb 5 (by decide) rfl (by decide)).2.2 (by decide)⟩

/-- C4: with a valid access token, get_current_user returns a cached user
without consulting the persistent store (the result is the same for every
store); on a cache miss it falls back to the store, populates the cache
with the found user under a 30-minute TTL, and returns it; an
unresolvable subject is rejected 401. -/
theorem get_current_user_cache_behaviour (tok : Token) (now : Nat)
    (c : CacheState)
    (hkey : tok.key = SECRET_KEY) (hexp : now ≤ tok.exp)
    (hscope : tok.scope = some "access_token") :
    (∀ u, cache_get c tok.sub = .ok (some u) →
       ∀ db, Auth.get_current_user tok db c now = .ok (u, c))
    ∧ (∀ db u, cache_get c tok.sub = .ok none →
        get_user_by_email tok.sub db = .ok (some u) →
        ∃ c2, Auth.get_current_user tok db c now = .ok (u, c2)
          ∧ c2.entries.find? (fun en => en.key == tok.sub) =
              some { key := tok.sub, val := u, ttl := some (30 * 60) })
    ∧ (∀ db, cache_get c tok.sub = .ok none →
        get_user_by_email tok.sub db = .ok none →
        Auth.get_current_user tok db c now =
          .error (.httpException 401 "Could not validate credentials")) := by
  refine ⟨?_, ?_, ?_⟩
  · intro u hcg db
    unfold Auth.get_current_user jwt_decode
    rw [if_pos ⟨hkey, hexp⟩]
    simp [hscope, hcg]
  · intro db u hcg hget
    obtain ⟨ents, cfail⟩ := c
    have hlive : cfail = false := by
      cases cfail
      · rfl
      · unfold cache_get at hcg
        simp at hcg
    subst hlive
    have hrun : Auth.get_current_user tok db ⟨ents, false⟩ now =
        .ok (u, ⟨{ key := tok.sub, val := u, ttl := some (30 * 60) } ::
          (ents.filter (fun en => !(en.key == tok.sub))).map
            (fun en => if en.key == tok.sub then { en with ttl := some (30 * 60) } else en),
          false⟩) := by
      unfold Auth.get_current_user jwt_decode cache_set cache_expire
      rw [if_pos ⟨hkey, hexp⟩]
      simp [hscope, hcg, hget]
    refine ⟨_, hrun, ?_⟩
    simp [List.find?_cons]
  · intro db hcg hget
    unfold Auth.get_current_user jwt_decode
    rw [if_pos ⟨hkey, hexp⟩]
    simp [hscope, hcg, hget]

/-- Witness for C4: a warm cache serves bob with no store read (the same
result on the demo store and on an empty store); a cold cache falls back
to the store and repopulates; a subject unknown to store and cache is
401. -/
theorem get_current_user_cache_behaviour_witness :
    Auth.get_current_user (create_access_token "bob@x.com" none 0)
        Demo.demoDb Demo.warmCache 5 = .ok (Demo.bobU, Demo.warmCache)
    ∧ Auth.get_current_user (create_access_token "bob@x.com" none 0)
        { users := [], contacts := [], nextUserId := 1 } Demo.warmCache 5 =
        .ok (Demo.bobU, Demo.warmCache)
    ∧ (∃ c2, Auth.get_current_user (create_access_token "bob@x.com" none 0)
          Demo.demoDb Demo.liveCache 5 = .ok (Demo.bobU, c2)
        ∧ c2.entries.find? (fun en => en.key == "bob@x.com") =
            some { key := "bob@x.com", val := Demo.bobU, ttl := some (30 * 60) })
    ∧ Auth.get_current_user (create_access_token "ghost@x.com" none 0)
        Demo.demoDb Demo.liveCache 5 =
        .error (.httpException 401 "Could not validate credentials") :=
  ⟨(get_current_user_cache_behaviour (create_access_token "bob@x.com" none 0)
      5 Demo.warmCache rfl (by decide) rfl).1 Demo.bobU (by decide) Demo.demoDb,
   (get_current_user_cache_behaviour (create_access_token "bob@x.com" none 0)
      5 Demo.warmCache rfl (by decide) rfl).1 Demo.bobU (by decide)
      { users := [], contacts := [], nextUserId := 1 },
   (get_current_user_cache_behaviour (create_access_token "bob@x.com" none 0)
      5 Demo.liveCache rfl (by decide) rfl).2.1 Demo.demoDb Demo.bobU
      (by decide) (by decide),
   (get_current_user_cache_behaviour (create_access_token "ghost@x.com" none 0)
      5 Demo.liveCache rfl (by decide) rfl).2.2 Demo.demoDb
      (by decide) (by decide)⟩

/-- C5 counterexample: with the cache store erroring (unreachable), a
valid access token for a user present in the persistent store does NOT
fall back — get_current_user propagates the cache exception instead of
returning the authenticated user. -/
theorem cache_failure_counterexample :
    Auth.get_current_user (create_access_token "bob@x.com" none 0)
        Demo.demoDb Demo.downCache 5 = .error .cacheError
    ∧ get_user_by_email "bob@x.com" Demo.demoDb = .ok (some Demo.bobU) := by
  constructor
  · decide
  · decide

/-- C5 (amended): a cache failure is NOT failed open: for every valid
access token, when the cache store errors, get_current_user propagates
the cache error and never reaches the persistent-store fallback. -/
theorem cache_failure_propagates (tok : Token) (db : Db) (now : Nat)
    (c : CacheState)
    (hkey : tok.key = SECRET_KEY) (hexp : now ≤ tok.exp)
    (hscope : tok.scope = some "access_token")
    (hfail : c.failing = true) :
    Auth.get_current_user tok db c now = .error .cacheError := by
  unfold Auth.get_current_user jwt_decode cache_get
  rw [if_pos ⟨hkey, hexp⟩]
  simp [hscope, hfail]

/-- Witness for C5 (amended) on the demo store with the unreachable
cache. -/
theorem cache_failure_propagates_witness :
    Auth.get_current_user (create_access_token "bob@x.com" none 0)
        Demo.demoDb Demo.downCache 5 = .error .cacheError :=
  cache_failure_propagates (create_access_token "bob@x.com" none 0)
    Demo.demoDb 5 Demo.downCache rfl (by decide) rfl rfl

/-- C6: evaluation at the failing input.  The repository-level
read_contacts has no per-user filter and returns Alice's contact to a
query made on Bob's behalf, and the route-level call crashes with the
TypeError caused by the extra user keyword argument, so GET /contacts/
cannot return 200 with only the caller's contacts. -/
theorem contacts_listing_not_user_scoped :
    RepoContacts.read_contacts 10 0 Demo.demoDb = [Demo.carolContact]
    ∧ Demo.carolContact.user_id ≠ Demo.bobU.id
    ∧ RoutesContacts.read_contacts 10 0
        (create_access_token "bob@x.com" none 0) Demo.demoDb
        Demo.liveCache 5 = .error .typeError := by
  refine ⟨rfl, by decide, by decide⟩

end ContactBook.Claims

namespace ContactBook.Claims

open ContactBook ContactBook.Auth ContactBook.RepoUsers ContactBook.Cache
open ContactBook.RoutesAuth ContactBook.Lemmas

/-- C1: refresh tokens are single-use-until-rotated: after a successful
login at t1, one refresh at t2 with the returned refresh token succeeds,
returns an access+refresh pair different from the original, and
overwrites the stored refresh token; a second refresh at t3 with the
original, now-superseded refresh token fails 401 "Invalid refresh token"
and clears the user's stored refresh token. -/
theorem refresh_token_single_use (db : Db) (u : ContactBook.User)
    (pw : String) (t1 t2 t3 : Nat)
    (hwf : db.wf)
    (hget : get_user_by_email u.email db = .ok (some u))
    (hconf : u.confirmed = true)
    (hpw : verify_password pw u.password = true)
    (h12 : t1 < t2)
    (h2e : t2 ≤ t1 + 7 * 24 * 60 * 60)
    (h3e : t3 ≤ t1 + 7 * 24 * 60 * 60) :
    ∃ db1 db2 db3 pair1 pair2 u2 u3,
      login u.email pw db t1 = (db1, .ok pair1)
      ∧ refresh_token_route pair1.refresh_token db1 t2 = (db2, .ok pair2)
      ∧ pair2.refresh_token ≠ pair1.refresh_token
      ∧ pair2.access_token ≠ pair1.access_token
      ∧ get_user_by_email u.email db2 = .ok (some u2)
      ∧ u2.refresh_token = some pair2.refresh_token
      ∧ refresh_token_route pair1.refresh_token db2 t3 =
          (db3, .error (.httpException 401 "Invalid refresh token"))
      ∧ get_user_by_email u.email db3 = .ok (some u3)
      ∧ u3.refresh_token = none := by
  have hlogin := login_success_eq u.email pw db t1 u hget hconf hpw
  have hstep1 := db_update_row_spec db u
    (fun v => { v with refresh_token := some (create_refresh_token u.email none t1) })
    u.email hwf hget rfl rfl
  have hrefresh2 := refresh_success_eq
    (create_refresh_token u.email none t1)
    (update_token u (some (create_refresh_token u.email none t1)) db)
    t2
    { u with refresh_token := some (create_refresh_token u.email none t1) }
    rfl h2e rfl hstep1.1 rfl
  have hstep2 := db_update_row_spec
    (update_token u (some (create_refresh_token u.email none t1)) db)
    { u with refresh_token := some (create_refresh_token u.email none t1) }
    (fun v => { v with refresh_token := some (create_refresh_token (create_refresh_token u.email none t1).sub none t2) })
    u.email hstep1.2 hstep1.1 rfl rfl
  have hr2ne :
      create_refresh_token (create_refresh_token u.email none t1).sub none t2
        ≠ create_refresh_token u.email none t1 := by
    intro h
    have hiat : t2 = t1 := congrArg Token.iat h
    omega
  have ha2ne :
      create_access_token (create_refresh_token u.email none t1).sub none t2
        ≠ create_access_token u.email none t1 := by
    intro h
    have hiat : t2 = t1 := congrArg Token.iat h
    omega
  have hmismatch := refresh_mismatch_eq
    (create_refresh_token u.email none t1)
    (update_token
      { u with refresh_token := some (create_refresh_token u.email none t1) }
      (some (create_refresh_token (create_refresh_token u.email none t1).sub none t2))
      (update_token u (some (create_refresh_token u.email none t1)) db))
    t3
    { u with refresh_token := some (create_refresh_token (create_refresh_token u.email none t1).sub none t2) }
    rfl h3e rfl hstep2.1
    (fun h => hr2ne (Option.some.inj h))
  have hstep3 := db_update_row_spec
    (update_token
      { u with refresh_token := some (create_refresh_token u.email none t1) }
      (some (create_refresh_token (create_refresh_token u.email none t1).sub none t2))
      (update_token u (some (create_refresh_token u.email none t1)) db))
    { u with refresh_token := some (create_refresh_token (create_refresh_token u.email none t1).sub none t2) }
    (fun v => { v with refresh_token := none })
    u.email hstep2.2 hstep2.1 rfl rfl
  exact ⟨_, _, _, _, _, _, _, hlogin, hrefresh2, hr2ne, ha2ne,
    hstep2.1, rfl, hmismatch, hstep3.1, rfl⟩

end ContactBook.Claims

namespace ContactBook.Claims

open ContactBook ContactBook.RepoUsers ContactBook.RoutesAuth

/-- Witness for C1 on the demo store: bob logs in at time 0, refreshes at
time 1, and replaying the original refresh token at time 2 is rejected
and clears the stored token. -/
theorem refresh_token_single_use_witness :
    ∃ db1 db2 db3 pair1 pair2 u2 u3,
      login Demo.bobU.email "pw" Demo.demoDb 0 = (db1, .ok pair1)
      ∧ refresh_token_route pair1.refresh_token db1 1 = (db2, .ok pair2)
      ∧ pair2.refresh_token ≠ pair1.refresh_token
      ∧ pair2.access_token ≠ pair1.access_token
      ∧ get_user_by_email Demo.bobU.email db2 = .ok (some u2)
      ∧ u2.refresh_token = some pair2.refresh_token
      ∧ refresh_token_route pair1.refresh_token db2 2 =
          (db3, .error (.httpException 401 "Invalid refresh token"))
      ∧ get_user_by_email Demo.bobU.email db3 = .ok (some u3)
      ∧ u3.refresh_token = none :=
  refresh_token_single_use Demo.demoDb Demo.bobU "pw" 0 1 2
    (by decide) (by decide) rfl (by decide) (by decide) (by decide) (by decide)

end ContactBook.Claims

namespace ContactBook.Claims

open ContactBook ContactBook.RoutesAuth

/-- C1 counterexample: when the refresh happens in the same second as the
login (t1 = t2 = 0), the rotation mints a pair byte-identical to the
original (same sub, scope, iat, exp, key — hence the same encoded JWT),
so the returned pair is NOT different from the original, the stored slot
is overwritten with the identical value, and replaying the "original"
refresh token at time 1 still succeeds with a fresh pair instead of
failing 401 and clearing the stored token. -/
theorem refresh_same_second_counterexample :
    (login "bob@x.com" "pw" Demo.demoDb 0).2 =
      .ok { access_token := Auth.create_access_token "bob@x.com" none 0,
            refresh_token := Auth.create_refresh_token "bob@x.com" none 0,
            token_type := "bearer" }
    ∧ (refresh_token_route (Auth.create_refresh_token "bob@x.com" none 0)
         (login "bob@x.com" "pw" Demo.demoDb 0).1 0).2 =
      .ok { access_token := Auth.create_access_token "bob@x.com" none 0,
            refresh_token := Auth.create_refresh_token "bob@x.com" none 0,
            token_type := "bearer" }
    ∧ (refresh_token_route (Auth.create_refresh_token "bob@x.com" none 0)
         (refresh_token_route (Auth.create_refresh_token "bob@x.com" none 0)
            (login "bob@x.com" "pw" Demo.demoDb 0).1 0).1 1).2 =
      .ok { access_token := Auth.create_access_token "bob@x.com" none 1,
            refresh_token := Auth.create_refresh_token "bob@x.com" none 1,
            token_type := "bearer" } := by
  refine ⟨by decide, by decide, by decide⟩

end ContactBook.Claims
